import Mathlib

/-!
Verification of the mastodon-scout command-line client (src/main.go).

The development shallowly embeds the program's pure logic:

* `stripTags` / `replaceAll` / `stripHTML` embed the `stripHTML` function
  (main.go lines 395-418): a character-by-character tag-removal scan with a
  single inside-tag flag, followed by nine sequential
  `strings.ReplaceAll` passes in source order.
* `getStringField` / `getFloatField` embed the defensive field accessors
  (main.go lines 374-392).  JSON numbers are modelled as integers; the
  claims under verification only concern which record a number is read
  from and its zero default, never floating-point arithmetic.
* `formatStatus` / `formatStatuses` / `formatMentions` /
  `formatSearchResults` / `formatText` embed the text renderers
  (main.go lines 232-371); each `fmt.Printf`/`fmt.Println` becomes a
  string concatenation ending in the printed newline.
* `makeRequest` embeds the status-code check of the fetcher
  (main.go lines 146-148); the transport is modelled by handing the
  function the response status code and body it would have read.
* `mainGo` embeds `main` (main.go lines 35-111): positional arguments
  after flag parsing, the token environment variable, the `--json` flag
  and the fetch layer (given as a function from command and query to a
  fetch outcome together with the number of HTTP requests it performed)
  are inputs; standard output, standard error and the exit code are the
  outputs.
-/

/-! ## Go strings.ReplaceAll, embedded on `List Char`

`raGo pat rep skip s` scans `s` one character at a time.  While `skip` is
positive the character belongs to an already-matched occurrence of `pat`
and is dropped.  At `skip = 0`, if `pat` matches at the current position
the replacement `rep` is emitted and the match is skipped (one character
now, `pat.length - 1` via the skip counter); otherwise the character is
copied.  This is Go's leftmost, non-overlapping `strings.ReplaceAll`
for a non-empty pattern. -/

def raGo (pat rep : List Char) : Nat → List Char → List Char
  | _, [] => []
  | skip + 1, _ :: cs => raGo pat rep skip cs
  | 0, c :: cs =>
    if pat.isPrefixOf (c :: cs) then
      rep ++ raGo pat rep (pat.length - 1) cs
    else
      c :: raGo pat rep 0 cs

def replaceAll (pat rep s : List Char) : List Char :=
  raGo pat rep 0 s

/-! ## The tag-removal scan of stripHTML (main.go lines 396-406) -/

def stripTags : List Char → Bool → List Char
  | [], _ => []
  | c :: cs, inTag =>
    if c = '<' then stripTags cs true
    else if c = '>' then stripTags cs false
    else if inTag then stripTags cs inTag
    else c :: stripTags cs inTag

/-- The inside-tag flag left behind after scanning a list of characters. -/
def tagState : List Char → Bool → Bool
  | [], st => st
  | c :: cs, st =>
    if c = '<' then tagState cs true
    else if c = '>' then tagState cs false
    else tagState cs st

/-! ## The nine ReplaceAll passes of stripHTML, in source order
(main.go lines 408-416) -/

def pass1 (l : List Char) : List Char := replaceAll "&lt;".data "<".data l

def pass2 (l : List Char) : List Char := replaceAll "&gt;".data ">".data l

def pass3 (l : List Char) : List Char := replaceAll "&amp;".data "&".data l

def pass4 (l : List Char) : List Char := replaceAll "&quot;".data "\"".data l

def pass5 (l : List Char) : List Char := replaceAll "&#39;".data [Char.ofNat 39] l

def pass6 (l : List Char) : List Char := replaceAll "<br>".data "\n".data l

def pass7 (l : List Char) : List Char := replaceAll "<br/>".data "\n".data l

def pass8 (l : List Char) : List Char := replaceAll "<br />".data "\n".data l

def pass9 (l : List Char) : List Char := replaceAll "</p><p>".data "\n\n".data l

/-- The entity- and break-marker substitutions applied after tag removal. -/
def applyEntities (l : List Char) : List Char :=
  pass9 (pass8 (pass7 (pass6 (pass5 (pass4 (pass3 (pass2 (pass1 l))))))))

/-- List-level stripHTML: the tag scan starts outside a tag, then the
nine substitutions run in source order. -/
def stripHTMLList (l : List Char) : List Char :=
  applyEntities (stripTags l false)

/-- stripHTML (main.go lines 395-418). -/
def stripHTML (s : String) : String :=
  ⟨stripHTMLList s.data⟩

/-! ## Basic equations for `replaceAll` -/

theorem raGo_skip (pat rep : List Char) :
    ∀ (s : List Char) (n : Nat), raGo pat rep n s = raGo pat rep 0 (s.drop n)
  | [], 0 => rfl
  | [], _ + 1 => rfl
  | _ :: _, 0 => rfl
  | c :: cs, n + 1 => by
    have h1 : raGo pat rep (n + 1) (c :: cs) = raGo pat rep n cs := by
      simp [raGo]
    rw [h1, raGo_skip pat rep cs n]
    rfl

theorem replaceAll_nil (pat rep : List Char) : replaceAll pat rep [] = [] := rfl

theorem replaceAll_cons_pos {pat : List Char} (rep : List Char) {c : Char} {cs : List Char}
    (hne : pat ≠ []) (h : pat <+: (c :: cs)) :
    replaceAll pat rep (c :: cs) = rep ++ replaceAll pat rep ((c :: cs).drop pat.length) := by
  obtain ⟨m, hm⟩ : ∃ m, pat.length = m + 1 :=
    Nat.exists_eq_succ_of_ne_zero (by simpa using hne)
  have hb : pat.isPrefixOf (c :: cs) = true := List.isPrefixOf_iff_prefix.mpr h
  show raGo pat rep 0 (c :: cs) = _
  rw [show raGo pat rep 0 (c :: cs)
        = if pat.isPrefixOf (c :: cs) then rep ++ raGo pat rep (pat.length - 1) cs
          else c :: raGo pat rep 0 cs from by simp [raGo]]
  rw [hb, if_pos rfl, raGo_skip, hm]
  rfl

theorem replaceAll_cons_neg {pat : List Char} (rep : List Char) {c : Char} {cs : List Char}
    (h : ¬ pat <+: (c :: cs)) :
    replaceAll pat rep (c :: cs) = c :: replaceAll pat rep cs := by
  have hb : pat.isPrefixOf (c :: cs) = false := by
    by_contra hcon
    exact h ( List.isPrefixOf_iff_prefix.mp (by simpa using hcon))
  show raGo pat rep 0 (c :: cs) = _
  rw [show raGo pat rep 0 (c :: cs)
        = if pat.isPrefixOf (c :: cs) then rep ++ raGo pat rep (pat.length - 1) cs
          else c :: raGo pat rep 0 cs from by simp [raGo]]
  rw [hb]
  simp
  rfl

/-- A pattern that does not occur in the input is never replaced. -/
theorem replaceAll_of_not_infix {pat : List Char} (rep : List Char) :
    ∀ {s : List Char}, ¬ pat <:+: s → replaceAll pat rep s = s
  | [], _ => rfl
  | c :: cs, h => by
    have hp : ¬ pat <+: (c :: cs) := fun hp => h hp.isInfix
    rw [replaceAll_cons_neg rep hp,
      replaceAll_of_not_infix rep (fun hi => h (List.infix_cons_iff.mpr (Or.inr hi)))]

/-- Any character of the pattern that is missing from the string rules out
an occurrence of the pattern. -/
theorem not_infix_of_mem_not_mem {pat s : List Char} {c : Char}
    (hc : c ∈ pat) (hs : c ∉ s) : ¬ pat <:+: s :=
  fun h => hs (h.sublist.subset hc)

/-! ## Splitting `replaceAll` across an append

When no occurrence of the pattern straddles the boundary between `u` and
`w`, the scan processes the two parts independently.  The no-straddle
condition says: for no proper split of the pattern is its left part a
suffix of `u` while its right part is a prefix of `w`. -/

theorem suffix_cons_of_suffix {t cs : List Char} (c : Char) (h : t <:+ cs) :
    t <:+ c :: cs := by
  obtain ⟨q, hq⟩ := h
  exact ⟨c :: q, by rw [List.cons_append, hq]⟩

theorem not_prefix_of_head_ne {t l : List Char} {a b : Char}
    (ht : t.head? = some a) (hl : l.head? = some b) (hab : a ≠ b) : ¬ t <+: l := by
  intro h
  match t, l, h with
  | [], _, _ => simp at ht
  | _ :: _, [], h => exact absurd (List.prefix_nil.mp h) (by simp)
  | t0 :: ts, l0 :: ls, h =>
    have := ( List.cons_prefix_cons.mp h).1
    simp only [List.head?_cons, Option.some.injEq] at ht hl
    exact hab (ht ▸ hl ▸ this)

theorem not_prefix_append_of_short {t a : List Char} (b : List Char)
    (hlen : t.length ≤ a.length) (h : ¬ t <+: a) : ¬ t <+: a ++ b := by
  intro hab
  apply h
  have h1 : t = (a ++ b).take t.length := List.prefix_iff_eq_take.mp hab
  rw [List.take_append_eq_append_take, Nat.sub_eq_zero_of_le hlen,
    List.take_zero, List.append_nil] at h1
  rw [h1]
  exact List.take_prefix _ _

theorem replaceAll_append (pat rep : List Char) (hne : pat ≠ []) :
    ∀ (n : Nat) (u w : List Char), u.length ≤ n →
      (∀ k, 0 < k → k < pat.length → ¬ (pat.take k <:+ u ∧ pat.drop k <+: w)) →
      replaceAll pat rep (u ++ w) = replaceAll pat rep u ++ replaceAll pat rep w := by
  intro n
  induction n with
  | zero =>
    intro u w hlen _
    have hu : u = [] := List.length_eq_zero.mp (Nat.le_zero.mp hlen)
    subst hu
    rfl
  | succ n ih =>
    intro u w hlen hstr
    match u with
    | [] => rfl
    | c :: cs =>
      by_cases hm : pat <+: (c :: (cs ++ w))
      · by_cases hl : pat.length ≤ (c :: cs).length
        · -- the match lies inside `u`
          have hpu : pat <+: (c :: cs) := by
            have h1 : pat = ((c :: cs) ++ w).take pat.length :=
              List.prefix_iff_eq_take.mp (by simpa using hm)
            rw [List.take_append_eq_append_take, Nat.sub_eq_zero_of_le hl,
              List.take_zero, List.append_nil] at h1
            rw [h1]
            exact List.take_prefix _ _
          rw [List.cons_append, replaceAll_cons_pos rep hne hm,
            replaceAll_cons_pos rep hne hpu, List.append_assoc]
          congr 1
          have hdrop_eq : (c :: (cs ++ w)).drop pat.length
              = (c :: cs).drop pat.length ++ w := by
            rw [← List.cons_append, List.drop_append_eq_append_drop,
              Nat.sub_eq_zero_of_le hl, List.drop_zero]
          rw [hdrop_eq]
          apply ih
          · have hp0 : pat.length ≠ 0 := fun h0 => hne (List.length_eq_zero.mp h0)
            have hld := List.length_drop pat.length (c :: cs)
            simp only [List.length_cons] at hlen hld
            omega
          · intro k hk0 hklt hand
            exact hstr k hk0 hklt ⟨hand.1.trans (List.drop_suffix _ _), hand.2⟩
        · -- the match would straddle the boundary: contradiction
          exfalso
          push_neg at hl
          obtain ⟨r, hr⟩ := hm
          rw [← List.cons_append] at hr
          have htake := congrArg (List.take (c :: cs).length) hr
          rw [List.take_append_eq_append_take, List.take_append_eq_append_take,
            Nat.sub_eq_zero_of_le (Nat.le_of_lt hl), Nat.sub_self,
            List.take_zero, List.take_zero, List.append_nil, List.append_nil,
            List.take_length] at htake
          have hdrop := congrArg (List.drop (c :: cs).length) hr
          rw [List.drop_append_eq_append_drop, List.drop_append_eq_append_drop,
            Nat.sub_eq_zero_of_le (Nat.le_of_lt hl), Nat.sub_self,
            List.drop_zero, List.drop_zero, List.drop_length, List.nil_append] at hdrop
          refine hstr (c :: cs).length (by simp) hl ⟨?_, ?_⟩
          · rw [htake]
          · exact ⟨r, hdrop⟩
      · -- no match at the head
        have hpu : ¬ pat <+: (c :: cs) :=
          fun h => hm (by simpa using h.trans (List.prefix_append (c :: cs) w))
        rw [List.cons_append, replaceAll_cons_neg rep hm, replaceAll_cons_neg rep hpu,
          List.cons_append]
        congr 1
        apply ih cs w
        · simp only [List.length_cons] at hlen
          omega
        · intro k hk0 hklt hand
          exact hstr k hk0 hklt ⟨suffix_cons_of_suffix c hand.1, hand.2⟩

/-- Splitting around a distinguished middle region `R`: occurrences cannot
straddle the `A`/`R` boundary (no proper tail of the pattern starts `R ++ B`)
nor the `R`/`B` boundary (no proper head of the pattern ends `R`). -/
theorem replaceAll_split (pat rep : List Char) (hne : pat ≠ []) (A R B : List Char)
    (hqs : ∀ k, 0 < k → k < pat.length → ¬ pat.drop k <+: (R ++ B))
    (hps : ∀ k, 0 < k → k < pat.length → ¬ pat.take k <:+ R) :
    replaceAll pat rep (A ++ (R ++ B)) =
      replaceAll pat rep A ++ (replaceAll pat rep R ++ replaceAll pat rep B) := by
  rw [replaceAll_append pat rep hne A.length A (R ++ B) (Nat.le_refl _)
    (fun k h0 hlt hand => hqs k h0 hlt hand.2)]
  congr 1
  exact replaceAll_append pat rep hne R.length R B (Nat.le_refl _)
    (fun k h0 hlt hand => hps k h0 hlt hand.1)

/-! ## Occurrences across replacements

The four break-marker passes replace patterns made of non-newline
characters by strings of newlines.  Such a pass eliminates every
occurrence of its own pattern and cannot create an occurrence of any
newline-free string that was absent before. -/

theorem infix_append_right_of_disjoint {t b : List Char} :
    ∀ {a : List Char}, (∀ c ∈ a, c ∉ t) → t <:+: a ++ b → t = [] ∨ t <:+: b
  | [], _, h => Or.inr (by simpa using h)
  | x :: a', hd, h => by
    rcases List.infix_cons_iff.mp (by simpa using h) with hpre | hinf
    · match t, hpre with
      | [], _ => exact Or.inl rfl
      | t0 :: ts, hpre =>
        have hx : t0 = x := ( List.cons_prefix_cons.mp hpre).1
        exact absurd (hx ▸ List.mem_cons_self t0 ts)
          (hd x (List.mem_cons_self x a'))
    · exact infix_append_right_of_disjoint
        (fun c hc => hd c (List.mem_cons_of_mem x hc)) hinf

/-- If a newline-free string is a prefix of the output of a pass whose
replacement is a non-empty string of newlines, it was already a prefix of
the input. -/
theorem prefix_of_prefix_replaceAll {pat rep : List Char} (hne : pat ≠ [])
    (hrep : ∀ c ∈ rep, c = '\n') (hrne : rep ≠ []) :
    ∀ (u t : List Char), '\n' ∉ t → t <+: replaceAll pat rep u → t <+: u := by
  intro u
  induction u with
  | nil => intro t _ h; rw [replaceAll_nil] at h; exact h
  | cons c cs ih =>
    intro t hnt hpre
    by_cases hp : pat <+: (c :: cs)
    · rw [replaceAll_cons_pos rep hne hp] at hpre
      match t, hpre with
      | [], _ => exact List.nil_prefix
      | t0 :: ts, hpre =>
        obtain ⟨r0, rs, hr⟩ := List.exists_cons_of_ne_nil hrne
        rw [hr, List.cons_append] at hpre
        have h0 : t0 = r0 := ( List.cons_prefix_cons.mp hpre).1
        have : t0 = '\n' := h0 ▸ hrep r0 (hr ▸ List.mem_cons_self r0 rs)
        exact absurd (this ▸ List.mem_cons_self t0 ts) hnt
    · rw [replaceAll_cons_neg rep hp] at hpre
      match t, hpre with
      | [], _ => exact List.nil_prefix
      | t0 :: ts, hpre =>
        obtain ⟨h0, hts⟩ := List.cons_prefix_cons.mp hpre
        exact List.cons_prefix_cons.mpr
          ⟨h0, ih ts (fun hm => hnt (List.mem_cons_of_mem t0 hm)) hts⟩

/-- A break-marker pass leaves no occurrence of its own pattern behind. -/
theorem replaceAll_no_self {pat rep : List Char} (hne : pat ≠ [])
    (hnp : '\n' ∉ pat) (hrep : ∀ c ∈ rep, c = '\n') (hrne : rep ≠ []) :
    ∀ (n : Nat) (u : List Char), u.length ≤ n → ¬ pat <:+: replaceAll pat rep u := by
  intro n
  induction n with
  | zero =>
    intro u hlen
    have hu : u = [] := List.length_eq_zero.mp (Nat.le_zero.mp hlen)
    subst hu
    intro h
    rw [replaceAll_nil] at h
    exact hne (by simpa using h)
  | succ n ih =>
    intro u hlen
    match u with
    | [] =>
      intro h
      rw [replaceAll_nil] at h
      exact hne (by simpa using h)
    | c :: cs =>
      by_cases hp : pat <+: (c :: cs)
      · rw [replaceAll_cons_pos rep hne hp]
        intro hinf
        rcases infix_append_right_of_disjoint
            (fun ch hch => (hrep ch hch) ▸ hnp) hinf with h0 | hX
        · exact hne h0
        · refine ih _ ?_ hX
          have hp0 : pat.length ≠ 0 := fun h0 => hne (List.length_eq_zero.mp h0)
          have hld := List.length_drop pat.length (c :: cs)
          simp only [List.length_cons] at hlen hld
          omega
      · rw [replaceAll_cons_neg rep hp]
        intro hinf
        rcases List.infix_cons_iff.mp hinf with hpre | htail
        · match pat, hne, hnp, hp, hpre with
          | t0 :: ts, _, hnp, hp, hpre =>
            obtain ⟨h0, hts⟩ := List.cons_prefix_cons.mp hpre
            have hts' : ts <+: cs :=
              prefix_of_prefix_replaceAll (List.cons_ne_nil t0 ts) hrep hrne cs ts
                (fun hm => hnp (List.mem_cons_of_mem t0 hm)) hts
            exact hp (List.cons_prefix_cons.mpr ⟨h0, hts'⟩)
        · refine ih _ ?_ htail
          simp only [List.length_cons] at hlen
          omega

/-- A pass whose replacement is a string of newlines cannot create an
occurrence of a newline-free string that was absent from its input. -/
theorem replaceAll_no_create {pat rep t : List Char} (hne : pat ≠ [])
    (hnt : '\n' ∉ t) (hrep : ∀ c ∈ rep, c = '\n') (hrne : rep ≠ []) :
    ∀ (n : Nat) (u : List Char), u.length ≤ n → ¬ t <:+: u →
      ¬ t <:+: replaceAll pat rep u := by
  intro n
  induction n with
  | zero =>
    intro u hlen hni
    have hu : u = [] := List.length_eq_zero.mp (Nat.le_zero.mp hlen)
    subst hu
    rw [replaceAll_nil]
    exact hni
  | succ n ih =>
    intro u hlen hni
    match u with
    | [] =>
      rw [replaceAll_nil]
      exact hni
    | c :: cs =>
      by_cases hp : pat <+: (c :: cs)
      · rw [replaceAll_cons_pos rep hne hp]
        intro hinf
        rcases infix_append_right_of_disjoint
            (fun ch hch => (hrep ch hch) ▸ hnt) hinf with h0 | hX
        · subst h0
          exact hni List.nil_infix
        · refine ih _ ?_ ?_ hX
          · have hp0 : pat.length ≠ 0 := fun h0 => hne (List.length_eq_zero.mp h0)
            have hld := List.length_drop pat.length (c :: cs)
            simp only [List.length_cons] at hlen hld
            omega
          · intro hdi
            exact hni (hdi.trans (List.drop_suffix _ _).isInfix)
      · rw [replaceAll_cons_neg rep hp]
        intro hinf
        rcases List.infix_cons_iff.mp hinf with hpre | htail
        · match t, hnt, hni, hpre with
          | [], _, hni, _ => exact hni List.nil_infix
          | t0 :: ts, hnt, hni, hpre =>
            obtain ⟨h0, hts⟩ := List.cons_prefix_cons.mp hpre
            have hts' : ts <+: cs :=
              prefix_of_prefix_replaceAll hne hrep hrne cs ts
                (fun hm => hnt (List.mem_cons_of_mem t0 hm)) hts
            exact hni (( List.cons_prefix_cons.mpr ⟨h0, hts'⟩ : t0 :: ts <+: c :: cs)).isInfix
        · exact ih _ (by simp only [List.length_cons] at hlen; omega)
            (fun hic => hni (List.infix_cons_iff.mpr (Or.inr hic))) htail

/-! ## Lemmas about the tag-removal scan -/

theorem stripTags_append (a : List Char) :
    ∀ (b : List Char) (st : Bool),
      stripTags (a ++ b) st = stripTags a st ++ stripTags b (tagState a st) := by
  induction a with
  | nil => intro b st; rfl
  | cons c cs ih =>
    intro b st
    by_cases h1 : c = '<'
    · simp [stripTags, tagState, h1, ih]
    · by_cases h2 : c = '>'
      · simp [stripTags, tagState, h1, h2, ih]
      · by_cases h3 : st
        · simp [stripTags, tagState, h1, h2, h3, ih]
        · simp [stripTags, tagState, h1, h2, h3, ih]

/-- Inside a tag, a string with no closing bracket produces no output. -/
theorem stripTags_no_gt : ∀ {v : List Char}, '>' ∉ v → stripTags v true = []
  | [], _ => rfl
  | c :: cs, h => by
    have hc : c ≠ '>' := fun hcon => h (hcon ▸ List.mem_cons_self c cs)
    have hcs : '>' ∉ cs := fun hm => h (List.mem_cons_of_mem c hm)
    by_cases h1 : c = '<'
    · simp [stripTags, h1, stripTags_no_gt hcs]
    · simp [stripTags, h1, hc, stripTags_no_gt hcs]

/-- The tag scan is the identity on strings without angle brackets. -/
theorem stripTags_id : ∀ {s : List Char}, '<' ∉ s → '>' ∉ s → stripTags s false = s
  | [], _, _ => rfl
  | c :: cs, h1, h2 => by
    have hc1 : c ≠ '<' := fun hcon => h1 (hcon ▸ List.mem_cons_self c cs)
    have hc2 : c ≠ '>' := fun hcon => h2 (hcon ▸ List.mem_cons_self c cs)
    have ih := stripTags_id (fun hm => h1 (List.mem_cons_of_mem c hm))
      (fun hm => h2 (List.mem_cons_of_mem c hm))
    simp [stripTags, hc1, hc2, ih]

/-! ## Claims C1, C4, C9 -/

/-- C1: on the input `"<p>Hello &amp; welcome</p><p>World</p>"` the code's
stripHTML returns `"Hello & welcomeWorld"`, not the specified
`"Hello & welcome\n\nWorld"`: the tag scan removes the `</p><p>` boundary
before the break-marker substitutions (which run after tag removal) can
turn it into newlines. -/
theorem c1_code_eval :
    stripHTML "<p>Hello &amp; welcome</p><p>World</p>" = "Hello & welcomeWorld" ∧
      stripHTML "<p>Hello &amp; welcome</p><p>World</p>" ≠ "Hello & welcome\n\nWorld" := by
  decide

/-- C4 counterexample: `"1 > 0"` is plain text (it contains no HTML tag and
no character entity), yet stripHTML changes it: the scan drops the bare
`>` character. -/
theorem c4_counterexample :
    stripHTML "1 > 0" ≠ "1 > 0" ∧ stripHTML "1 > 0" = "1  0" := by decide

/-- C4 (amended): stripHTML returns its input unchanged when the input
contains no `<` and no `>` character and none of the five entity
sequences occurs in it. -/
theorem c4_plain_text_unchanged (s : String)
    (h1 : '<' ∉ s.data) (h2 : '>' ∉ s.data)
    (e1 : ¬ "&lt;".data <:+: s.data) (e2 : ¬ "&gt;".data <:+: s.data)
    (e3 : ¬ "&amp;".data <:+: s.data) (e4 : ¬ "&quot;".data <:+: s.data)
    (e5 : ¬ "&#39;".data <:+: s.data) :
    stripHTML s = s := by
  have hlt : ¬ "<br>".data <:+: s.data :=
    not_infix_of_mem_not_mem (by decide) h1
  have hlt2 : ¬ "<br/>".data <:+: s.data :=
    not_infix_of_mem_not_mem (c := '<') (by decide) h1
  have hlt3 : ¬ "<br />".data <:+: s.data :=
    not_infix_of_mem_not_mem (c := '<') (by decide) h1
  have hlt4 : ¬ "</p><p>".data <:+: s.data :=
    not_infix_of_mem_not_mem (c := '<') (by decide) h1
  show (⟨stripHTMLList s.data⟩ : String) = s
  rw [show stripHTMLList s.data = s.data from by
    unfold stripHTMLList applyEntities pass1 pass2 pass3 pass4 pass5 pass6 pass7 pass8 pass9
    rw [stripTags_id h1 h2,
      replaceAll_of_not_infix _ e1, replaceAll_of_not_infix _ e2,
      replaceAll_of_not_infix _ e3, replaceAll_of_not_infix _ e4,
      replaceAll_of_not_infix _ e5, replaceAll_of_not_infix _ hlt,
      replaceAll_of_not_infix _ hlt2, replaceAll_of_not_infix _ hlt3,
      replaceAll_of_not_infix _ hlt4]]

theorem c4_witness : stripHTML "plain text 123" = "plain text 123" :=
  c4_plain_text_unchanged "plain text 123" (by decide) (by decide) (by decide)
    (by decide) (by decide) (by decide) (by decide)

/-- C9: a `<` with no subsequent `>` makes the scan drop every remaining
character (the scan stays in the inside-tag state), and the entity
substitutions are then applied to what the scan kept from the prefix
before that `<`. -/
theorem c9_unclosed_tag_swallows (u v : List Char) (h : '>' ∉ v) :
    stripHTMLList (u ++ '<' :: v) = applyEntities (stripTags u false) := by
  unfold stripHTMLList
  rw [stripTags_append]
  rw [show stripTags ('<' :: v) (tagState u false) = [] from by
    simp [stripTags, stripTags_no_gt h]]
  rw [List.append_nil]

theorem c9_witness : stripHTMLList ("ab".data ++ '<' :: "cd".data) = "ab".data :=
  (c9_unclosed_tag_swallows "ab".data "cd".data (by decide)).trans (by decide)
/-! ## Transport of the escaped break markers through the nine passes -/

theorem spA1p1 (A B : List Char) :
    pass1 (A ++ ("&lt;br&gt;".data ++ B)) = pass1 A ++ ("<br&gt;".data ++ pass1 B) := by
  unfold pass1
  rw [replaceAll_split "&lt;".data "<".data (by decide) A "&lt;br&gt;".data B ?hq ?hp,
    show replaceAll "&lt;".data "<".data "&lt;br&gt;".data = "<br&gt;".data from by decide]
  case hq =>
    intro k hk0 hklt
    rw [show ("&lt;".data).length = 4 from rfl] at hklt
    interval_cases k
    · exact not_prefix_of_head_ne rfl rfl (by decide)
    · exact not_prefix_of_head_ne rfl rfl (by decide)
    · exact not_prefix_of_head_ne rfl rfl (by decide)
  case hp =>
    intro k hk0 hklt
    rw [show ("&lt;".data).length = 4 from rfl] at hklt
    interval_cases k
    all_goals decide

theorem spA1p2 (A B : List Char) :
    pass2 (A ++ ("<br&gt;".data ++ B)) = pass2 A ++ ("<br>".data ++ pass2 B) := by
  unfold pass2
  rw [replaceAll_split "&gt;".data ">".data (by decide) A "<br&gt;".data B ?hq ?hp,
    show replaceAll "&gt;".data ">".data "<br&gt;".data = "<br>".data from by decide]
  case hq =>
    intro k hk0 hklt
    rw [show ("&gt;".data).length = 4 from rfl] at hklt
    interval_cases k
    · exact not_prefix_of_head_ne rfl rfl (by decide)
    · exact not_prefix_of_head_ne rfl rfl (by decide)
    · exact not_prefix_of_head_ne rfl rfl (by decide)
  case hp =>
    intro k hk0 hklt
    rw [show ("&gt;".data).length = 4 from rfl] at hklt
    interval_cases k
    all_goals decide

theorem spA1p3 (A B : List Char) :
    pass3 (A ++ ("<br>".data ++ B)) = pass3 A ++ ("<br>".data ++ pass3 B) := by
  unfold pass3
  rw [replaceAll_split "&amp;".data "&".data (by decide) A "<br>".data B ?hq ?hp,
    show replaceAll "&amp;".data "&".data "<br>".data = "<br>".data from by decide]
  case hq =>
    intro k hk0 hklt
    rw [show ("&amp;".data).length = 5 from rfl] at hklt
    interval_cases k
    · exact not_prefix_of_head_ne rfl rfl (by decide)
    · exact not_prefix_of_head_ne rfl rfl (by decide)
    · exact not_prefix_of_head_ne rfl rfl (by decide)
    · exact not_prefix_of_head_ne rfl rfl (by decide)
  case hp =>
    intro k hk0 hklt
    rw [show ("&amp;".data).length = 5 from rfl] at hklt
    interval_cases k
    all_goals decide

theorem spA1p4 (A B : List Char) :
    pass4 (A ++ ("<br>".data ++ B)) = pass4 A ++ ("<br>".data ++ pass4 B) := by
  unfold pass4
  rw [replaceAll_split "&quot;".data "\"".data (by decide) A "<br>".data B ?hq ?hp,
    show replaceAll "&quot;".data "\"".data "<br>".data = "<br>".data from by decide]
  case hq =>
    intro k hk0 hklt
    rw [show ("&quot;".data).length = 6 from rfl] at hklt
    interval_cases k
    · exact not_prefix_of_head_ne rfl rfl (by decide)
    · exact not_prefix_of_head_ne rfl rfl (by decide)
    · exact not_prefix_of_head_ne rfl rfl (by decide)
    · exact not_prefix_of_head_ne rfl rfl (by decide)
    · exact not_prefix_of_head_ne rfl rfl (by decide)
  case hp =>
    intro k hk0 hklt
    rw [show ("&quot;".data).length = 6 from rfl] at hklt
    interval_cases k
    all_goals decide

theorem spA1p5 (A B : List Char) :
    pass5 (A ++ ("<br>".data ++ B)) = pass5 A ++ ("<br>".data ++ pass5 B) := by
  unfold pass5
  rw [replaceAll_split "&#39;".data [Char.ofNat 39] (by decide) A "<br>".data B ?hq ?hp,
    show replaceAll "&#39;".data [Char.ofNat 39] "<br>".data = "<br>".data from by decide]
  case hq =>
    intro k hk0 hklt
    rw [show ("&#39;".data).length = 5 from rfl] at hklt
    interval_cases k
    · exact not_prefix_of_head_ne rfl rfl (by decide)
    · exact not_prefix_of_head_ne rfl rfl (by decide)
    · exact not_prefix_of_head_ne rfl rfl (by decide)
    · exact not_prefix_of_head_ne rfl rfl (by decide)
  case hp =>
    intro k hk0 hklt
    rw [show ("&#39;".data).length = 5 from rfl] at hklt
    interval_cases k
    all_goals decide

theorem spA1p6 (A B : List Char) :
    pass6 (A ++ ("<br>".data ++ B)) = pass6 A ++ ("\n".data ++ pass6 B) := by
  unfold pass6
  rw [replaceAll_split "<br>".data "\n".data (by decide) A "<br>".data B ?hq ?hp,
    show replaceAll "<br>".data "\n".data "<br>".data = "\n".data from by decide]
  case hq =>
    intro k hk0 hklt
    rw [show ("<br>".data).length = 4 from rfl] at hklt
    interval_cases k
    · exact not_prefix_of_head_ne rfl rfl (by decide)
    · exact not_prefix_of_head_ne rfl rfl (by decide)
    · exact not_prefix_of_head_ne rfl rfl (by decide)
  case hp =>
    intro k hk0 hklt
    rw [show ("<br>".data).length = 4 from rfl] at hklt
    interval_cases k
    all_goals decide

theorem spA1p7 (A B : List Char) :
    pass7 (A ++ ("\n".data ++ B)) = pass7 A ++ ("\n".data ++ pass7 B) := by
  unfold pass7
  rw [replaceAll_split "<br/>".data "\n".data (by decide) A "\n".data B ?hq ?hp,
    show replaceAll "<br/>".data "\n".data "\n".data = "\n".data from by decide]
  case hq =>
    intro k hk0 hklt
    rw [show ("<br/>".data).length = 5 from rfl] at hklt
    interval_cases k
    · exact not_prefix_of_head_ne rfl rfl (by decide)
    · exact not_prefix_of_head_ne rfl rfl (by decide)
    · exact not_prefix_of_head_ne rfl rfl (by decide)
    · exact not_prefix_of_head_ne rfl rfl (by decide)
  case hp =>
    intro k hk0 hklt
    rw [show ("<br/>".data).length = 5 from rfl] at hklt
    interval_cases k
    all_goals decide

theorem spA1p8 (A B : List Char) :
    pass8 (A ++ ("\n".data ++ B)) = pass8 A ++ ("\n".data ++ pass8 B) := by
  unfold pass8
  rw [replaceAll_split "<br />".data "\n".data (by decide) A "\n".data B ?hq ?hp,
    show replaceAll "<br />".data "\n".data "\n".data = "\n".data from by decide]
  case hq =>
    intro k hk0 hklt
    rw [show ("<br />".data).length = 6 from rfl] at hklt
    interval_cases k
    · exact not_prefix_of_head_ne rfl rfl (by decide)
    · exact not_prefix_of_head_ne rfl rfl (by decide)
    · exact not_prefix_of_head_ne rfl rfl (by decide)
    · exact not_prefix_of_head_ne rfl rfl (by decide)
    · exact not_prefix_of_head_ne rfl rfl (by decide)
  case hp =>
    intro k hk0 hklt
    rw [show ("<br />".data).length = 6 from rfl] at hklt
    interval_cases k
    all_goals decide

theorem spA1p9 (A B : List Char) :
    pass9 (A ++ ("\n".data ++ B)) = pass9 A ++ ("\n".data ++ pass9 B) := by
  unfold pass9
  rw [replaceAll_split "</p><p>".data "\n\n".data (by decide) A "\n".data B ?hq ?hp,
    show replaceAll "</p><p>".data "\n\n".data "\n".data = "\n".data from by decide]
  case hq =>
    intro k hk0 hklt
    rw [show ("</p><p>".data).length = 7 from rfl] at hklt
    interval_cases k
    · exact not_prefix_of_head_ne rfl rfl (by decide)
    · exact not_prefix_of_head_ne rfl rfl (by decide)
    · exact not_prefix_of_head_ne rfl rfl (by decide)
    · exact not_prefix_of_head_ne rfl rfl (by decide)
    · exact not_prefix_of_head_ne rfl rfl (by decide)
    · exact not_prefix_of_head_ne rfl rfl (by decide)
  case hp =>
    intro k hk0 hklt
    rw [show ("</p><p>".data).length = 7 from rfl] at hklt
    interval_cases k
    all_goals decide

theorem spA2p1 (A B : List Char) :
    pass1 (A ++ ("&lt;/p&gt;&lt;p&gt;".data ++ B)) = pass1 A ++ ("</p&gt;<p&gt;".data ++ pass1 B) := by
  unfold pass1
  rw [replaceAll_split "&lt;".data "<".data (by decide) A "&lt;/p&gt;&lt;p&gt;".data B ?hq ?hp,
    show replaceAll "&lt;".data "<".data "&lt;/p&gt;&lt;p&gt;".data = "</p&gt;<p&gt;".data from by decide]
  case hq =>
    intro k hk0 hklt
    rw [show ("&lt;".data).length = 4 from rfl] at hklt
    interval_cases k
    · exact not_prefix_of_head_ne rfl rfl (by decide)
    · exact not_prefix_of_head_ne rfl rfl (by decide)
    · exact not_prefix_of_head_ne rfl rfl (by decide)
  case hp =>
    intro k hk0 hklt
    rw [show ("&lt;".data).length = 4 from rfl] at hklt
    interval_cases k
    all_goals decide

theorem spA2p2 (A B : List Char) :
    pass2 (A ++ ("</p&gt;<p&gt;".data ++ B)) = pass2 A ++ ("</p><p>".data ++ pass2 B) := by
  unfold pass2
  rw [replaceAll_split "&gt;".data ">".data (by decide) A "</p&gt;<p&gt;".data B ?hq ?hp,
    show replaceAll "&gt;".data ">".data "</p&gt;<p&gt;".data = "</p><p>".data from by decide]
  case hq =>
    intro k hk0 hklt
    rw [show ("&gt;".data).length = 4 from rfl] at hklt
    interval_cases k
    · exact not_prefix_of_head_ne rfl rfl (by decide)
    · exact not_prefix_of_head_ne rfl rfl (by decide)
    · exact not_prefix_of_head_ne rfl rfl (by decide)
  case hp =>
    intro k hk0 hklt
    rw [show ("&gt;".data).length = 4 from rfl] at hklt
    interval_cases k
    all_goals decide

theorem spA2p3 (A B : List Char) :
    pass3 (A ++ ("</p><p>".data ++ B)) = pass3 A ++ ("</p><p>".data ++ pass3 B) := by
  unfold pass3
  rw [replaceAll_split "&amp;".data "&".data (by decide) A "</p><p>".data B ?hq ?hp,
    show replaceAll "&amp;".data "&".data "</p><p>".data = "</p><p>".data from by decide]
  case hq =>
    intro k hk0 hklt
    rw [show ("&amp;".data).length = 5 from rfl] at hklt
    interval_cases k
    · exact not_prefix_of_head_ne rfl rfl (by decide)
    · exact not_prefix_of_head_ne rfl rfl (by decide)
    · exact not_prefix_of_head_ne rfl rfl (by decide)
    · exact not_prefix_of_head_ne rfl rfl (by decide)
  case hp =>
    intro k hk0 hklt
    rw [show ("&amp;".data).length = 5 from rfl] at hklt
    interval_cases k
    all_goals decide

theorem spA2p4 (A B : List Char) :
    pass4 (A ++ ("</p><p>".data ++ B)) = pass4 A ++ ("</p><p>".data ++ pass4 B) := by
  unfold pass4
  rw [replaceAll_split "&quot;".data "\"".data (by decide) A "</p><p>".data B ?hq ?hp,
    show replaceAll "&quot;".data "\"".data "</p><p>".data = "</p><p>".data from by decide]
  case hq =>
    intro k hk0 hklt
    rw [show ("&quot;".data).length = 6 from rfl] at hklt
    interval_cases k
    · exact not_prefix_of_head_ne rfl rfl (by decide)
    · exact not_prefix_of_head_ne rfl rfl (by decide)
    · exact not_prefix_of_head_ne rfl rfl (by decide)
    · exact not_prefix_of_head_ne rfl rfl (by decide)
    · exact not_prefix_of_head_ne rfl rfl (by decide)
  case hp =>
    intro k hk0 hklt
    rw [show ("&quot;".data).length = 6 from rfl] at hklt
    interval_cases k
    all_goals decide

theorem spA2p5 (A B : List Char) :
    pass5 (A ++ ("</p><p>".data ++ B)) = pass5 A ++ ("</p><p>".data ++ pass5 B) := by
  unfold pass5
  rw [replaceAll_split "&#39;".data [Char.ofNat 39] (by decide) A "</p><p>".data B ?hq ?hp,
    show replaceAll "&#39;".data [Char.ofNat 39] "</p><p>".data = "</p><p>".data from by decide]
  case hq =>
    intro k hk0 hklt
    rw [show ("&#39;".data).length = 5 from rfl] at hklt
    interval_cases k
    · exact not_prefix_of_head_ne rfl rfl (by decide)
    · exact not_prefix_of_head_ne rfl rfl (by decide)
    · exact not_prefix_of_head_ne rfl rfl (by decide)
    · exact not_prefix_of_head_ne rfl rfl (by decide)
  case hp =>
    intro k hk0 hklt
    rw [show ("&#39;".data).length = 5 from rfl] at hklt
    interval_cases k
    all_goals decide

theorem spA2p6 (A B : List Char) :
    pass6 (A ++ ("</p><p>".data ++ B)) = pass6 A ++ ("</p><p>".data ++ pass6 B) := by
  unfold pass6
  rw [replaceAll_split "<br>".data "\n".data (by decide) A "</p><p>".data B ?hq ?hp,
    show replaceAll "<br>".data "\n".data "</p><p>".data = "</p><p>".data from by decide]
  case hq =>
    intro k hk0 hklt
    rw [show ("<br>".data).length = 4 from rfl] at hklt
    interval_cases k
    · exact not_prefix_of_head_ne rfl rfl (by decide)
    · exact not_prefix_of_head_ne rfl rfl (by decide)
    · exact not_prefix_of_head_ne rfl rfl (by decide)
  case hp =>
    intro k hk0 hklt
    rw [show ("<br>".data).length = 4 from rfl] at hklt
    interval_cases k
    all_goals decide

theorem spA2p7 (A B : List Char) :
    pass7 (A ++ ("</p><p>".data ++ B)) = pass7 A ++ ("</p><p>".data ++ pass7 B) := by
  unfold pass7
  rw [replaceAll_split "<br/>".data "\n".data (by decide) A "</p><p>".data B ?hq ?hp,
    show replaceAll "<br/>".data "\n".data "</p><p>".data = "</p><p>".data from by decide]
  case hq =>
    intro k hk0 hklt
    rw [show ("<br/>".data).length = 5 from rfl] at hklt
    interval_cases k
    · exact not_prefix_of_head_ne rfl rfl (by decide)
    · exact not_prefix_of_head_ne rfl rfl (by decide)
    · exact not_prefix_of_head_ne rfl rfl (by decide)
    · exact not_prefix_of_head_ne rfl rfl (by decide)
  case hp =>
    intro k hk0 hklt
    rw [show ("<br/>".data).length = 5 from rfl] at hklt
    interval_cases k
    all_goals decide

theorem spA2p8 (A B : List Char) :
    pass8 (A ++ ("</p><p>".data ++ B)) = pass8 A ++ ("</p><p>".data ++ pass8 B) := by
  unfold pass8
  rw [replaceAll_split "<br />".data "\n".data (by decide) A "</p><p>".data B ?hq ?hp,
    show replaceAll "<br />".data "\n".data "</p><p>".data = "</p><p>".data from by decide]
  case hq =>
    intro k hk0 hklt
    rw [show ("<br />".data).length = 6 from rfl] at hklt
    interval_cases k
    · exact not_prefix_of_head_ne rfl rfl (by decide)
    · exact not_prefix_of_head_ne rfl rfl (by decide)
    · exact not_prefix_of_head_ne rfl rfl (by decide)
    · exact not_prefix_of_head_ne rfl rfl (by decide)
    · exact not_prefix_of_head_ne rfl rfl (by decide)
  case hp =>
    intro k hk0 hklt
    rw [show ("<br />".data).length = 6 from rfl] at hklt
    interval_cases k
    all_goals decide

theorem spA2p9 (A B : List Char) :
    pass9 (A ++ ("</p><p>".data ++ B)) = pass9 A ++ ("\n\n".data ++ pass9 B) := by
  unfold pass9
  rw [replaceAll_split "</p><p>".data "\n\n".data (by decide) A "</p><p>".data B ?hq ?hp,
    show replaceAll "</p><p>".data "\n\n".data "</p><p>".data = "\n\n".data from by decide]
  case hq =>
    intro k hk0 hklt
    rw [show ("</p><p>".data).length = 7 from rfl] at hklt
    interval_cases k
    · exact not_prefix_of_head_ne rfl rfl (by decide)
    · exact not_prefix_of_head_ne rfl rfl (by decide)
    · exact not_prefix_of_head_ne rfl rfl (by decide)
    · exact not_prefix_append_of_short B (by decide) (by decide)
    · exact not_prefix_of_head_ne rfl rfl (by decide)
    · exact not_prefix_of_head_ne rfl rfl (by decide)
  case hp =>
    intro k hk0 hklt
    rw [show ("</p><p>".data).length = 7 from rfl] at hklt
    interval_cases k
    all_goals decide

/-- An escaped `&lt;br&gt;` in bracket-free surroundings ends up as one
newline after the nine passes. -/
theorem applyEntities_br_marker (A B : List Char) :
    applyEntities (A ++ ("&lt;br&gt;".data ++ B)) =
      applyEntities A ++ ('\n' :: applyEntities B) := by
  unfold applyEntities
  rw [spA1p1, spA1p2, spA1p3, spA1p4, spA1p5, spA1p6, spA1p7, spA1p8, spA1p9]
  rfl

/-- An escaped `&lt;/p&gt;&lt;p&gt;` in bracket-free surroundings ends up
as two newlines after the nine passes. -/
theorem applyEntities_pp_marker (A B : List Char) :
    applyEntities (A ++ ("&lt;/p&gt;&lt;p&gt;".data ++ B)) =
      applyEntities A ++ ('\n' :: '\n' :: applyEntities B) := by
  unfold applyEntities
  rw [spA2p1, spA2p2, spA2p3, spA2p4, spA2p5, spA2p6, spA2p7, spA2p8, spA2p9]
  rfl

/-- C10 counterexample: an occurrence of the escaped text `&lt;br&gt;`
inside an unclosed tag region is swallowed by the tag scan, so it does not
become a newline. -/
theorem c10_counterexample :
    "&lt;br&gt;".data <:+: "<a&lt;br&gt;>".data ∧
      stripHTML "<a&lt;br&gt;>" = "" ∧
      '\n' ∉ (stripHTML "<a&lt;br&gt;>").data := by decide

/-- C10 (amended): if the input contains no `<` and no `>` character, an
occurrence of the escaped text `&lt;br&gt;` puts a newline in the output
and an occurrence of `&lt;/p&gt;&lt;p&gt;` puts two consecutive newlines
in the output; and for every input, the output never contains any of the
substrings `<br>`, `<br/>`, `<br />`, `</p><p>`. -/
theorem c10_break_markers :
    (∀ s : List Char, '<' ∉ s → '>' ∉ s →
        ("&lt;br&gt;".data <:+: s → '\n' ∈ stripHTMLList s) ∧
        ("&lt;/p&gt;&lt;p&gt;".data <:+: s → ['\n', '\n'] <:+: stripHTMLList s)) ∧
    (∀ s : List Char,
        ¬ "<br>".data <:+: stripHTMLList s ∧ ¬ "<br/>".data <:+: stripHTMLList s ∧
        ¬ "<br />".data <:+: stripHTMLList s ∧ ¬ "</p><p>".data <:+: stripHTMLList s) := by
  constructor
  · intro s h1 h2
    constructor
    · intro hocc
      obtain ⟨a, b, hs⟩ := hocc
      have hform : s = a ++ ("&lt;br&gt;".data ++ b) := by
        rw [← hs, List.append_assoc]
      rw [show stripHTMLList s = applyEntities s from by
          unfold stripHTMLList; rw [stripTags_id h1 h2]]
      rw [hform, applyEntities_br_marker]
      simp
    · intro hocc
      obtain ⟨a, b, hs⟩ := hocc
      have hform : s = a ++ ("&lt;/p&gt;&lt;p&gt;".data ++ b) := by
        rw [← hs, List.append_assoc]
      rw [show stripHTMLList s = applyEntities s from by
          unfold stripHTMLList; rw [stripTags_id h1 h2]]
      rw [hform, applyEntities_pp_marker]
      exact ⟨applyEntities a, applyEntities b, by simp⟩
  · intro s
    have hshl : stripHTMLList s
        = pass9 (pass8 (pass7 (pass6 (pass5 (pass4 (pass3 (pass2
            (pass1 (stripTags s false))))))))) := rfl
    set t5 : List Char :=
      pass5 (pass4 (pass3 (pass2 (pass1 (stripTags s false))))) with ht5
    have hrep1 : ∀ c ∈ "\n".data, c = '\n' := by decide
    have hrep2 : ∀ c ∈ "\n\n".data, c = '\n' := by decide
    -- `<br>` is eliminated by pass6 and not recreated afterwards
    have h6 : ¬ "<br>".data <:+: pass6 t5 :=
      replaceAll_no_self (by decide) (by decide) hrep1 (by decide)
        t5.length t5 (Nat.le_refl _)
    have h7 : ¬ "<br>".data <:+: pass7 (pass6 t5) :=
      replaceAll_no_create (by decide) (by decide) hrep1 (by decide)
        (pass6 t5).length (pass6 t5) (Nat.le_refl _) h6
    have h8 : ¬ "<br>".data <:+: pass8 (pass7 (pass6 t5)) :=
      replaceAll_no_create (by decide) (by decide) hrep1 (by decide)
        (pass7 (pass6 t5)).length (pass7 (pass6 t5)) (Nat.le_refl _) h7
    have h9 : ¬ "<br>".data <:+: pass9 (pass8 (pass7 (pass6 t5))) :=
      replaceAll_no_create (by decide) (by decide) hrep2 (by decide)
        (pass8 (pass7 (pass6 t5))).length (pass8 (pass7 (pass6 t5))) (Nat.le_refl _) h8
    -- `<br/>` is eliminated by pass7 and not recreated afterwards
    have g7 : ¬ "<br/>".data <:+: pass7 (pass6 t5) :=
      replaceAll_no_self (by decide) (by decide) hrep1 (by decide)
        (pass6 t5).length (pass6 t5) (Nat.le_refl _)
    have g8 : ¬ "<br/>".data <:+: pass8 (pass7 (pass6 t5)) :=
      replaceAll_no_create (by decide) (by decide) hrep1 (by decide)
        (pass7 (pass6 t5)).length (pass7 (pass6 t5)) (Nat.le_refl _) g7
    have g9 : ¬ "<br/>".data <:+: pass9 (pass8 (pass7 (pass6 t5))) :=
      replaceAll_no_create (by decide) (by decide) hrep2 (by decide)
        (pass8 (pass7 (pass6 t5))).length (pass8 (pass7 (pass6 t5))) (Nat.le_refl _) g8
    -- `<br />` is eliminated by pass8 and not recreated afterwards
    have f8 : ¬ "<br />".data <:+: pass8 (pass7 (pass6 t5)) :=
      replaceAll_no_self (by decide) (by decide) hrep1 (by decide)
        (pass7 (pass6 t5)).length (pass7 (pass6 t5)) (Nat.le_refl _)
    have f9 : ¬ "<br />".data <:+: pass9 (pass8 (pass7 (pass6 t5))) :=
      replaceAll_no_create (by decide) (by decide) hrep2 (by decide)
        (pass8 (pass7 (pass6 t5))).length (pass8 (pass7 (pass6 t5))) (Nat.le_refl _) f8
    -- `</p><p>` is eliminated by the final pass
    have e9 : ¬ "</p><p>".data <:+: pass9 (pass8 (pass7 (pass6 t5))) :=
      replaceAll_no_self (by decide) (by decide) hrep2 (by decide)
        (pass8 (pass7 (pass6 t5))).length (pass8 (pass7 (pass6 t5))) (Nat.le_refl _)
    rw [hshl]
    exact ⟨h9, g9, f9, e9⟩

theorem c10_witness :
    '\n' ∈ stripHTMLList "x&lt;br&gt;y".data ∧
      ['\n', '\n'] <:+: stripHTMLList "a&lt;/p&gt;&lt;p&gt;b".data ∧
      ¬ "<br>".data <:+: stripHTMLList "x<br>y".data :=
  ⟨(c10_break_markers.1 "x&lt;br&gt;y".data (by decide) (by decide)).1 (by decide),
    (c10_break_markers.1 "a&lt;/p&gt;&lt;p&gt;b".data (by decide) (by decide)).2 (by decide),
    (c10_break_markers.2 "x<br>y".data).1⟩

/-! ## The generic JSON data model

Decoded API payloads are generic nested values.  A Go
`map[string]interface{}` is a record of fields; a Go map variable can be
nil, which we model with `Option`.  JSON numbers (Go `float64`) are
modelled as integers: the claims only concern which record a number is
read from and its zero default.  `List.lookup` models Go map indexing
(decoded JSON objects have distinct keys). -/

inductive JSON where
  | null
  | bool (b : Bool)
  | num (n : Int)
  | str (s : String)
  | arr (elems : List JSON)
  | obj (fields : List (String × JSON))

abbrev Rec := List (String × JSON)

/-- Indexing `m[key]` on a possibly-nil Go map: a nil map or an absent key
gives the nil interface value. -/
def lookupF (m : Option Rec) (key : String) : Option JSON :=
  match m with
  | none => none
  | some fields => fields.lookup key

/-- The Go type assertion `v.(map[string]interface{})`: it succeeds only
on an object value; on anything else (absence, null, other types) it
yields the nil map. -/
def asRecord : Option JSON → Option Rec
  | some (JSON.obj fields) => some fields
  | _ => none

/-- getStringField (main.go lines 374-382). -/
def getStringField (m : Option Rec) (key : String) : String :=
  match m with
  | none => ""
  | some fields =>
    match fields.lookup key with
    | some (JSON.str s) => s
    | _ => ""

/-- getFloatField (main.go lines 384-392). -/
def getFloatField (m : Option Rec) (key : String) : Int :=
  match m with
  | none => 0
  | some fields =>
    match fields.lookup key with
    | some (JSON.num n) => n
    | _ => 0

/-! ## The status renderer (main.go lines 246-311) -/

/-- The body of the `for i, status := range statuses` loop of
formatStatuses, rendering one status record (`i` is the zero-based
index). -/
def formatStatus (i : Nat) (status : Option Rec) : String :=
  let reblog : Option Rec := asRecord (lookupF status "reblog")
  let isReblog : Bool := reblog.isSome
  let boostedBy : String :=
    if isReblog then getStringField (asRecord (lookupF status "account")) "username"
    else ""
  let content : String :=
    if isReblog then getStringField reblog "content" else getStringField status "content"
  let createdAt : String :=
    if isReblog then getStringField reblog "created_at"
    else getStringField status "created_at"
  let reblogsCount : Int :=
    if isReblog then getFloatField reblog "reblogs_count"
    else getFloatField status "reblogs_count"
  let favoritesCount : Int :=
    if isReblog then getFloatField reblog "favourites_count"
    else getFloatField status "favourites_count"
  let repliesCount : Int :=
    if isReblog then getFloatField reblog "replies_count"
    else getFloatField status "replies_count"
  let postURL : String :=
    if isReblog then getStringField reblog "url" else getStringField status "url"
  let postAccount : Option Rec :=
    if isReblog then asRecord (lookupF reblog "account")
    else asRecord (lookupF status "account")
  let username : String := getStringField postAccount "username"
  let displayName : String := getStringField postAccount "display_name"
  let contentStripped : String := stripHTML content
  "--- Post " ++ toString (i + 1) ++ " ---\n" ++
    (if isReblog then "🔁 @" ++ boostedBy ++ " boosted\n" else "") ++
    "@" ++ username ++ " (" ++ displayName ++ ")\n" ++
    createdAt ++ "\n" ++
    "\n" ++ contentStripped ++ "\n\n" ++
    "💬 " ++ toString repliesCount ++ "  🔁 " ++ toString reblogsCount ++
    "  ⭐ " ++ toString favoritesCount ++ "\n" ++
    "🔗 " ++ postURL ++ "\n\n"

def formatStatusesLoop : Nat → List (Option Rec) → String
  | _, [] => ""
  | i, status :: rest => formatStatus i status ++ formatStatusesLoop (i + 1) rest

/-- formatStatuses, after the `[]map[string]interface{}` type assertion
has succeeded (the assertion itself is dispatched in `formatText`). -/
def formatStatuses (statuses : List (Option Rec)) : String :=
  if statuses.length = 0 then "No posts found.\n"
  else formatStatusesLoop 0 statuses

/-! ## The mention renderer (main.go lines 314-346) -/

def formatMention (i : Nat) (mention : Option Rec) : String :=
  let account : Option Rec := asRecord (lookupF mention "account")
  let username : String := getStringField account "username"
  let displayName : String := getStringField account "display_name"
  let status : Option Rec := asRecord (lookupF mention "status")
  let content : String := getStringField status "content"
  let createdAt : String := getStringField mention "created_at"
  let contentStripped : String := stripHTML content
  "--- Mention " ++ toString (i + 1) ++ " ---\n" ++
    "@" ++ username ++ " (" ++ displayName ++ ") mentioned you\n" ++
    createdAt ++ "\n" ++
    "\n" ++ contentStripped ++ "\n\n"

def formatMentionsLoop : Nat → List (Option Rec) → String
  | _, [] => ""
  | i, mention :: rest => formatMention i mention ++ formatMentionsLoop (i + 1) rest

/-- formatMentions, after the type assertion has succeeded. -/
def formatMentions (mentions : List (Option Rec)) : String :=
  if mentions.length = 0 then "No mentions found.\n"
  else formatMentionsLoop 0 mentions

/-! ## The search renderer (main.go lines 349-371) -/

/-- The per-element assertion `s.(map[string]interface{})` used when
converting the `statuses` sequence: non-object elements stay nil. -/
def asRecordJ : JSON → Option Rec
  | JSON.obj fields => some fields
  | _ => none

/-- formatSearchResults, after the record type assertion has succeeded.
A `statuses` field that is absent or not a sequence yields the empty
sequence (a failed Go assertion gives a nil slice). -/
def formatSearchResults (searchResult : Rec) : String :=
  let statuses : List JSON :=
    match searchResult.lookup "statuses" with
    | some (JSON.arr xs) => xs
    | _ => []
  if statuses.length = 0 then "No posts found.\n"
  else formatStatuses (statuses.map asRecordJ)

/-! ## Claims C2, C5, C8 -/

/-- C2: with a `reblog` sub-record `R`, the rendered content, timestamp,
counts, url and author account all come from `R` while the boost line's
username comes from the top-level `account`; without a `reblog`
sub-record every displayed field comes from the top-level record. -/
theorem c2_reblog_field_sources (i : Nat) (status : Option Rec) :
    (∀ R : Rec, lookupF status "reblog" = some (JSON.obj R) →
      formatStatus i status =
        "--- Post " ++ toString (i + 1) ++ " ---\n" ++
          ("🔁 @" ++ getStringField (asRecord (lookupF status "account")) "username"
            ++ " boosted\n") ++
          "@" ++ getStringField (asRecord (lookupF (some R) "account")) "username" ++
          " (" ++ getStringField (asRecord (lookupF (some R) "account")) "display_name" ++
          ")\n" ++
          getStringField (some R) "created_at" ++ "\n" ++
          "\n" ++ stripHTML (getStringField (some R) "content") ++ "\n\n" ++
          "💬 " ++ toString (getFloatField (some R) "replies_count") ++
          "  🔁 " ++ toString (getFloatField (some R) "reblogs_count") ++
          "  ⭐ " ++ toString (getFloatField (some R) "favourites_count") ++ "\n" ++
          "🔗 " ++ getStringField (some R) "url" ++ "\n\n") ∧
    (asRecord (lookupF status "reblog") = none →
      formatStatus i status =
        "--- Post " ++ toString (i + 1) ++ " ---\n" ++
          "@" ++ getStringField (asRecord (lookupF status "account")) "username" ++
          " (" ++ getStringField (asRecord (lookupF status "account")) "display_name" ++
          ")\n" ++
          getStringField status "created_at" ++ "\n" ++
          "\n" ++ stripHTML (getStringField status "content") ++ "\n\n" ++
          "💬 " ++ toString (getFloatField status "replies_count") ++
          "  🔁 " ++ toString (getFloatField status "reblogs_count") ++
          "  ⭐ " ++ toString (getFloatField status "favourites_count") ++ "\n" ++
          "🔗 " ++ getStringField status "url" ++ "\n\n") := by
  constructor
  · intro R h
    simp [formatStatus, h, asRecord]
  · intro h
    simp [formatStatus, h]

theorem c2_witness :
    formatStatus 0 (some [("reblog", JSON.obj
        [("content", JSON.str "<p>Hi</p>"), ("created_at", JSON.str "2024-01-01"),
          ("reblogs_count", JSON.num 2), ("favourites_count", JSON.num 3),
          ("replies_count", JSON.num 1), ("url", JSON.str "u"),
          ("account", JSON.obj
            [("username", JSON.str "alice"), ("display_name", JSON.str "Alice")])]),
      ("account", JSON.obj [("username", JSON.str "booster")])]) =
      "--- Post 1 ---\n🔁 @booster boosted\n@alice (Alice)\n2024-01-01\n\nHi\n\n💬 1  🔁 2  ⭐ 3\n🔗 u\n\n" := by
  have h := (c2_reblog_field_sources 0 (some [("reblog", JSON.obj
        [("content", JSON.str "<p>Hi</p>"), ("created_at", JSON.str "2024-01-01"),
          ("reblogs_count", JSON.num 2), ("favourites_count", JSON.num 3),
          ("replies_count", JSON.num 1), ("url", JSON.str "u"),
          ("account", JSON.obj
            [("username", JSON.str "alice"), ("display_name", JSON.str "Alice")])]),
      ("account", JSON.obj [("username", JSON.str "booster")])])).1
      [("content", JSON.str "<p>Hi</p>"), ("created_at", JSON.str "2024-01-01"),
        ("reblogs_count", JSON.num 2), ("favourites_count", JSON.num 3),
        ("replies_count", JSON.num 1), ("url", JSON.str "u"),
        ("account", JSON.obj
          [("username", JSON.str "alice"), ("display_name", JSON.str "Alice")])] rfl
  rw [h]
  decide

/-- C5: the field accessors are total and default-valued: a nil record, an
absent key or a wrong-typed value yields the empty string for string
fields and zero for numeric fields. -/
theorem c5_defensive_field_access (key : String) :
    (getStringField none key = "" ∧ getFloatField none key = 0) ∧
    (∀ m : Rec, m.lookup key = none →
      getStringField (some m) key = "" ∧ getFloatField (some m) key = 0) ∧
    (∀ (m : Rec) (j : JSON), m.lookup key = some j →
      ((∀ s, j ≠ JSON.str s) → getStringField (some m) key = "") ∧
      ((∀ n, j ≠ JSON.num n) → getFloatField (some m) key = 0)) := by
  refine ⟨⟨rfl, rfl⟩, ?_, ?_⟩
  · intro m h
    constructor <;> simp [getStringField, getFloatField, h]
  · intro m j h
    constructor
    · intro hns
      cases j <;> simp [getStringField, h]
      exact absurd rfl (hns _)
    · intro hnn
      cases j <;> simp [getFloatField, h]
      exact absurd rfl (hnn _)

theorem c5_witness :
    getStringField none "content" = "" ∧ getFloatField none "content" = 0 ∧
      getStringField (some [("x", JSON.num 7)]) "content" = "" ∧
      getStringField (some [("content", JSON.num 7)]) "content" = "" ∧
      getFloatField (some [("content", JSON.str "y")]) "content" = 0 :=
  ⟨(c5_defensive_field_access "content").1.1,
    (c5_defensive_field_access "content").1.2,
    ((c5_defensive_field_access "content").2.1 [("x", JSON.num 7)] rfl).1,
    (((c5_defensive_field_access "content").2.2 [("content", JSON.num 7)]
      (JSON.num 7) rfl).1 (fun s h => by cases h)),
    (((c5_defensive_field_access "content").2.2 [("content", JSON.str "y")]
      (JSON.str "y") rfl).2 (fun n h => by cases h))⟩

/-- C8: the mentions renderer on an empty sequence prints exactly the
line `No mentions found.`; the search renderer prints exactly the line
`No posts found.` when the `statuses` field is absent, an empty sequence,
or not a sequence. -/
theorem c8_empty_renderings :
    formatMentions [] = "No mentions found.\n" ∧
    (∀ r : Rec, r.lookup "statuses" = none →
      formatSearchResults r = "No posts found.\n") ∧
    (∀ r : Rec, r.lookup "statuses" = some (JSON.arr []) →
      formatSearchResults r = "No posts found.\n") ∧
    (∀ (r : Rec) (j : JSON), r.lookup "statuses" = some j →
      (∀ xs, j ≠ JSON.arr xs) → formatSearchResults r = "No posts found.\n") := by
  refine ⟨rfl, ?_, ?_, ?_⟩
  · intro r h
    simp [formatSearchResults, h]
  · intro r h
    simp [formatSearchResults, h]
  · intro r j h hna
    cases j <;> simp [formatSearchResults, h]
    exact absurd rfl (hna _)

theorem c8_witness :
    formatMentions [] = "No mentions found.\n" ∧
      formatSearchResults [("accounts", JSON.arr [])] = "No posts found.\n" ∧
      formatSearchResults [("statuses", JSON.arr [])] = "No posts found.\n" ∧
      formatSearchResults [("statuses", JSON.str "oops")] = "No posts found.\n" :=
  ⟨c8_empty_renderings.1,
    c8_empty_renderings.2.1 [("accounts", JSON.arr [])] rfl,
    c8_empty_renderings.2.2.1 [("statuses", JSON.arr [])] rfl,
    c8_empty_renderings.2.2.2 [("statuses", JSON.str "oops")] (JSON.str "oops") rfl
      (fun xs h => by cases h)⟩

/-! ## The fetcher's status check (main.go lines 146-148) -/

/-- makeRequest, after the transport has produced a response: given the
response's status code and fully read body, a status other than
`http.StatusOK` (200) yields the API error, otherwise the body is
returned. -/
def makeRequest (statusCode : Nat) (body : String) : Except String String :=
  if statusCode ≠ 200 then
    Except.error ("API error (status " ++ toString statusCode ++ "): " ++ body)
  else
    Except.ok body

/-- C3 counterexample: a 204 response has a 2xx status code, yet the code
returns an API error for it — the check is `!= 200`, not "non-2xx". -/
theorem c3_counterexample :
    makeRequest 204 "done" = Except.error "API error (status 204): done" := rfl

/-- C3 (amended): every non-200 response yields an API error whose
message contains the numeric status code and the raw body verbatim, and a
200 response yields no error. -/
theorem c3_api_error (statusCode : Nat) (body : String) :
    (statusCode ≠ 200 →
      makeRequest statusCode body =
        Except.error ("API error (status " ++ toString statusCode ++ "): " ++ body) ∧
      (toString statusCode).data <:+:
        ("API error (status " ++ toString statusCode ++ "): " ++ body).data ∧
      body.data <:+:
        ("API error (status " ++ toString statusCode ++ "): " ++ body).data) ∧
    (makeRequest 200 body = Except.ok body) := by
  constructor
  · intro h
    refine ⟨by simp [makeRequest, h], ?_, ?_⟩
    · exact ⟨"API error (status ".data, ("): " ++ body).data, by simp⟩
    · exact ⟨("API error (status " ++ toString statusCode ++ "): ").data, [], by simp⟩
  · rfl

theorem c3_witness :
    makeRequest 404 "Record not found" =
        Except.error "API error (status 404): Record not found" ∧
      "404".data <:+: "API error (status 404): Record not found".data ∧
      "Record not found".data <:+: "API error (status 404): Record not found".data := by
  have h := (c3_api_error 404 "Record not found").1 (by decide)
  exact ⟨h.1, h.2.1, h.2.2⟩

/-! ## Go encoding/json string escaping and marshaling

`encoding/json` escapes quotes, backslashes and control characters, and
(with the default HTML escaping of `json.Marshal`) also `<`, `>`, `&` and
the separators U+2028/U+2029.  Objects are marshaled with their keys in
ascending order. -/

def hexDigit (n : Nat) : Char :=
  if n < 10 then Char.ofNat (48 + n) else Char.ofNat (87 + n)

def goJSONEscapeChar (c : Char) : List Char :=
  if c = '"' then ['\\', '"']
  else if c = '\\' then ['\\', '\\']
  else if c = '\n' then ['\\', 'n']
  else if c = '\r' then ['\\', 'r']
  else if c = '\t' then ['\\', 't']
  else if c = '<' then "\\u003c".data
  else if c = '>' then "\\u003e".data
  else if c = '&' then "\\u0026".data
  else if c.toNat < 32 then
    '\\' :: 'u' :: '0' :: '0' :: [hexDigit (c.toNat / 16), hexDigit (c.toNat % 16)]
  else if c.toNat = 8232 then "\\u2028".data
  else if c.toNat = 8233 then "\\u2029".data
  else [c]

def goJSONEscape (s : String) : String :=
  ⟨(s.data.map goJSONEscapeChar).flatten⟩

def marshalString (s : String) : String :=
  "\"" ++ goJSONEscape s ++ "\""

def joinComma : List String → String
  | [] => ""
  | [x] => x
  | x :: y :: rest => x ++ "," ++ joinComma (y :: rest)

def insertByKey (p : String × String) : List (String × String) → List (String × String)
  | [] => [p]
  | q :: rest => if p.1 < q.1 then p :: q :: rest else q :: insertByKey p rest

def sortByKey : List (String × String) → List (String × String)
  | [] => []
  | p :: rest => insertByKey p (sortByKey rest)

mutual

def marshalJSON : JSON → String
  | JSON.null => "null"
  | JSON.bool true => "true"
  | JSON.bool false => "false"
  | JSON.num n => toString n
  | JSON.str s => marshalString s
  | JSON.arr xs => "[" ++ joinComma (marshalList xs) ++ "]"
  | JSON.obj fields =>
    "\x7b" ++
      joinComma ((sortByKey (marshalFields fields)).map
        (fun kv => marshalString kv.1 ++ ":" ++ kv.2)) ++ "\x7d"
  termination_by structural j => j

def marshalList : List JSON → List String
  | [] => []
  | x :: rest => marshalJSON x :: marshalList rest
  termination_by structural l => l

def marshalFields : List (String × JSON) → List (String × String)
  | [] => []
  | (k, v) :: rest => (k, marshalJSON v) :: marshalFields rest
  termination_by structural l => l

end

/-- A nil Go map marshals to `null`. -/
def marshalRecOpt : Option Rec → String
  | none => "null"
  | some fields => marshalJSON (JSON.obj fields)

/-! ## The top-level program (main.go lines 35-121)

The decoded payload handed from the fetch layer to the renderer is either
a slice of (possibly nil) records (`home`, `user-tweets`, `mentions`) or a
single record (`search`); its Go dynamic type drives the renderer's type
assertions. -/

inductive FetchData where
  | list (items : List (Option Rec))
  | record (fields : Rec)

def marshalData : FetchData → String
  | FetchData.list items => "[" ++ joinComma (items.map marshalRecOpt) ++ "]"
  | FetchData.record fields => marshalJSON (JSON.obj fields)

/-- formatText (main.go lines 232-243); a failing type assertion in the
per-command formatter prints the `unexpected data format` line. -/
def formatText (command : String) (data : FetchData) : String :=
  if command = "home" ∨ command = "user-tweets" then
    match data with
    | FetchData.list items => formatStatuses items
    | _ => "Error: unexpected data format\n"
  else if command = "mentions" then
    match data with
    | FetchData.list items => formatMentions items
    | _ => "Error: unexpected data format\n"
  else if command = "search" then
    match data with
    | FetchData.record fields => formatSearchResults fields
    | _ => "Error: unexpected data format\n"
  else "Unknown command format\n"

/-- What one program run writes to standard output and standard error,
and its exit code. -/
structure ProcResult where
  stdout : String
  stderr : String
  exitCode : Nat
deriving DecidableEq

def usageText : String :=
  "Usage: mastodon-scout <command> [args]\n" ++
    "Commands:\n" ++
    "  home              Get home timeline\n" ++
    "  user-tweets       Get user" ++ String.singleton (Char.ofNat 39) ++ "s tweets\n" ++
    "  mentions          Get mentions\n" ++
    "  search <query>    Search for posts\n"

/-- outputError (main.go lines 113-121): the failure envelope on standard
output (field order `success`, `error`; `data` is omitted) and the
human-readable line on standard error. -/
def outputError (msg : String) : String × String :=
  ("\x7b\"success\":false,\"error\":" ++ marshalString msg ++ "\x7d\n",
    "Error: " ++ msg ++ "\n")

/-- The success envelope printed in JSON mode (field order `success`,
`data`; `error` is omitted). -/
def successEnvelope (data : FetchData) : String :=
  "\x7b\"success\":true,\"data\":" ++ marshalData data ++ "\x7d\n"

/-- main (main.go lines 35-111).  `args` are the positional arguments
after flag parsing, `token` is `MASTODON_TOKEN` (empty when unset),
`flagJSON` is `--json`.  `fetchCmd command query` yields the fetch
layer's outcome together with the number of HTTP requests it performed;
the result's second component counts the HTTP requests of the whole run.
(The `json.Marshal` failure branch of the source is unreachable here:
marshaling a decoded payload cannot fail.) -/
def mainGo (args : List String) (token : String) (flagJSON : Bool)
    (fetchCmd : String → Option String → Except String FetchData × Nat) :
    ProcResult × Nat :=
  match args with
  | [] => (⟨"", usageText, 1⟩, 0)
  | command :: rest =>
    if token = "" then
      let e := outputError "MASTODON_TOKEN environment variable not set"
      (⟨e.1, e.2, 1⟩, 0)
    else
      let run : Except String FetchData × Nat → ProcResult × Nat := fun r =>
        match r with
        | (Except.error msg, n) =>
          let e := outputError msg
          (⟨e.1, e.2, 1⟩, n)
        | (Except.ok data, n) =>
          if flagJSON then (⟨successEnvelope data, "", 0⟩, n)
          else (⟨formatText command data, "", 0⟩, n)
      if command = "home" ∨ command = "user-tweets" ∨ command = "mentions" then
        run (fetchCmd command none)
      else if command = "search" then
        match rest with
        | [] =>
          let e := outputError "search command requires a query argument"
          (⟨e.1, e.2, 1⟩, 0)
        | query :: _ => run (fetchCmd command (some query))
      else
        let e := outputError ("unknown command: " ++ command)
        (⟨e.1, e.2, 1⟩, 0)

/-! ## Claims C6 and C7 -/

/-- C6: every failure among missing token, unknown command, missing
search query and fetch (network/API/decode) error prints the
`success:false` JSON envelope on standard output regardless of `--json`,
an `Error: ...` line on standard error, and exits with code 1; a
successful fetch exits with code 0. -/
theorem c6_failure_reporting (args : List String) (token : String) (flagJSON : Bool)
    (fetchCmd : String → Option String → Except String FetchData × Nat) :
    (∀ command rest, args = command :: rest → token = "" →
      (mainGo args token flagJSON fetchCmd).1 =
        ⟨"\x7b\"success\":false,\"error\":\"MASTODON_TOKEN environment variable not set\"\x7d\n",
          "Error: MASTODON_TOKEN environment variable not set\n", 1⟩) ∧
    (∀ command rest, args = command :: rest → token ≠ "" →
      command ∉ (["home", "user-tweets", "mentions", "search"] : List String) →
      (mainGo args token flagJSON fetchCmd).1 =
        ⟨"\x7b\"success\":false,\"error\":" ++ marshalString ("unknown command: " ++ command)
            ++ "\x7d\n",
          "Error: " ++ ("unknown command: " ++ command) ++ "\n", 1⟩) ∧
    (token ≠ "" → args = ["search"] →
      (mainGo args token flagJSON fetchCmd).1 =
        ⟨"\x7b\"success\":false,\"error\":\"search command requires a query argument\"\x7d\n",
          "Error: search command requires a query argument\n", 1⟩) ∧
    (∀ command rest msg n, args = command :: rest → token ≠ "" →
      command ∈ (["home", "user-tweets", "mentions"] : List String) →
      fetchCmd command none = (Except.error msg, n) →
      (mainGo args token flagJSON fetchCmd).1 =
        ⟨"\x7b\"success\":false,\"error\":" ++ marshalString msg ++ "\x7d\n",
          "Error: " ++ msg ++ "\n", 1⟩) ∧
    (∀ query rest msg n, args = "search" :: query :: rest → token ≠ "" →
      fetchCmd "search" (some query) = (Except.error msg, n) →
      (mainGo args token flagJSON fetchCmd).1 =
        ⟨"\x7b\"success\":false,\"error\":" ++ marshalString msg ++ "\x7d\n",
          "Error: " ++ msg ++ "\n", 1⟩) ∧
    (∀ command rest data n, args = command :: rest → token ≠ "" →
      command ∈ (["home", "user-tweets", "mentions"] : List String) →
      fetchCmd command none = (Except.ok data, n) →
      (mainGo args token flagJSON fetchCmd).1.exitCode = 0) ∧
    (∀ query rest data n, args = "search" :: query :: rest → token ≠ "" →
      fetchCmd "search" (some query) = (Except.ok data, n) →
      (mainGo args token flagJSON fetchCmd).1.exitCode = 0) ∧
    (args = [] → (mainGo args token flagJSON fetchCmd).1 = ⟨"", usageText, 1⟩) := by
  refine ⟨?_, ?_, ?_, ?_, ?_, ?_, ?_, ?_⟩
  · intro command rest h htok
    subst h
    subst htok
    simp [mainGo, outputError]
    decide
  · intro command rest h htok hni
    subst h
    simp only [List.mem_cons, List.mem_singleton, not_or] at hni
    obtain ⟨h1, h2, h3, h4⟩ := hni
    simp [mainGo, outputError, htok, h1, h2, h3, h4]
  · intro htok h
    subst h
    simp [mainGo, outputError, htok]
    decide
  · intro command rest msg n h htok hmem hfetch
    subst h
    simp only [List.mem_cons, List.mem_singleton] at hmem
    have hcond : command = "home" ∨ command = "user-tweets" ∨ command = "mentions" := by
      simpa using hmem
    simp [mainGo, outputError, htok, hcond, hfetch]
  · intro query rest msg n h htok hfetch
    subst h
    simp [mainGo, outputError, htok, hfetch]
  · intro command rest data n h htok hmem hfetch
    subst h
    simp only [List.mem_cons, List.mem_singleton] at hmem
    have hcond : command = "home" ∨ command = "user-tweets" ∨ command = "mentions" := by
      simpa using hmem
    rcases hfj : flagJSON with _ | _ <;> simp [mainGo, htok, hcond, hfetch, hfj]
  · intro query rest data n h htok hfetch
    subst h
    rcases hfj : flagJSON with _ | _ <;> simp [mainGo, htok, hfetch, hfj]
  · intro h
    subst h
    rfl

theorem c6_witness :
    (mainGo ["home"] "" false (fun _ _ => (Except.ok (FetchData.list []), 1))).1 =
      ⟨"\x7b\"success\":false,\"error\":\"MASTODON_TOKEN environment variable not set\"\x7d\n",
        "Error: MASTODON_TOKEN environment variable not set\n", 1⟩ ∧
    (mainGo ["frobnicate"] "tok" true (fun _ _ => (Except.ok (FetchData.list []), 1))).1 =
      ⟨"\x7b\"success\":false,\"error\":\"unknown command: frobnicate\"\x7d\n",
        "Error: unknown command: frobnicate\n", 1⟩ ∧
    (mainGo ["mentions"] "tok" true (fun _ _ => (Except.error "API error (status 404): gone", 1))).1 =
      ⟨"\x7b\"success\":false,\"error\":\"API error (status 404): gone\"\x7d\n",
        "Error: API error (status 404): gone\n", 1⟩ ∧
    (mainGo ["mentions"] "tok" false (fun _ _ => (Except.ok (FetchData.list []), 1))).1.exitCode = 0 := by
  refine ⟨?_, ?_, ?_, ?_⟩
  · exact ((c6_failure_reporting ["home"] "" false _).1 "home" [] rfl rfl)
  · exact (((c6_failure_reporting ["frobnicate"] "tok" true _).2.1 "frobnicate" [] rfl
      (by decide) (by decide)).trans (by decide))
  · exact (((c6_failure_reporting ["mentions"] "tok" true _).2.2.2.1 "mentions" [] _ 1 rfl
      (by decide) (by decide) rfl).trans (by decide))
  · exact ((c6_failure_reporting ["mentions"] "tok" false _).2.2.2.2.2.1 "mentions" []
      (FetchData.list []) 1 rfl (by decide) (by decide) rfl)

/-- C7: when the bearer token is absent, and when the search command lacks
its query argument, the run reports the configuration error and performs
zero HTTP requests. -/
theorem c7_no_network_on_config_error (args : List String) (token : String)
    (flagJSON : Bool)
    (fetchCmd : String → Option String → Except String FetchData × Nat) :
    (∀ command rest, args = command :: rest → token = "" →
      (mainGo args token flagJSON fetchCmd).2 = 0 ∧
      (mainGo args token flagJSON fetchCmd).1.exitCode = 1 ∧
      (mainGo args token flagJSON fetchCmd).1.stderr =
        "Error: MASTODON_TOKEN environment variable not set\n") ∧
    (token ≠ "" → args = ["search"] →
      (mainGo args token flagJSON fetchCmd).2 = 0 ∧
      (mainGo args token flagJSON fetchCmd).1.exitCode = 1 ∧
      (mainGo args token flagJSON fetchCmd).1.stderr =
        "Error: search command requires a query argument\n") := by
  constructor
  · intro command rest h htok
    subst h
    subst htok
    refine ⟨?_, ?_, ?_⟩ <;> simp [mainGo, outputError]
  · intro htok h
    subst h
    refine ⟨?_, ?_, ?_⟩ <;> simp [mainGo, outputError, htok]

theorem c7_witness :
    (mainGo ["home"] "" false (fun _ _ => (Except.ok (FetchData.list []), 1))).2 = 0 ∧
      (mainGo ["search"] "tok" false (fun _ _ => (Except.ok (FetchData.list []), 1))).2 = 0 ∧
      (mainGo ["search"] "tok" false (fun _ _ => (Except.ok (FetchData.list []), 1))).1.exitCode
        = 1 :=
  ⟨((c7_no_network_on_config_error ["home"] "" false _).1 "home" [] rfl rfl).1,
    ((c7_no_network_on_config_error ["search"] "tok" false _).2 (by decide) rfl).1,
    ((c7_no_network_on_config_error ["search"] "tok" false _).2 (by decide) rfl).2.1⟩
